import Mathlib

/-!
Verification of the frame model and timing validator of the peak-can-rs
socket module (`src/socket/mod.rs`), shallowly embedded in Lean.

Machine integers (`u8`, `u16`, `u32`, `usize`) are modelled as `Nat`: every
operation of the embedded code (bit masking, comparisons, table lookups)
stays within the original width, so no wrap-around modelling is needed.
Fixed-size byte arrays (`[u8; 8]`, `[u8; 64]`) are modelled as `List Nat`;
the fixed capacity is a type-level fact in Rust and appears here either as
an explicit length equation or as a hypothesis where frames are quantified.
Rust `Result` is modelled as `Except`.
-/

namespace PeakCan

/-- `pub const STANDARD_MASK: u32 = 0x07_FF` (mod.rs line 20). -/
def STANDARD_MASK : Nat := 0x7FF

/-- `pub const EXTENDED_MASK: u32 = 0x1F_FF_FF_FF` (mod.rs line 21). -/
def EXTENDED_MASK : Nat := 0x1FFFFFFF

/-- Modelled from the spec: the message-flag constants come from the crate's
`peak_can` module, which is not part of the sources being verified; the spec
describes the flags as independent bits, and the source comment at
mod.rs line 89 states that the standard-frame flag "is denoted as 0".
The nonzero flags are pairwise distinct single bits. -/
def PEAK_MESSAGE_STANDARD : Nat := 0x00

/-- Modelled from the spec: extended-frame flag bit of the `peak_can` module. -/
def PEAK_MESSAGE_EXTENDED : Nat := 0x02

/-- Modelled from the spec: flexible-data-rate flag bit of the `peak_can` module. -/
def PEAK_MESSAGE_FD : Nat := 0x04

/-- Modelled from the spec: bit-rate-switch flag bit of the `peak_can` module. -/
def PEAK_MESSAGE_BRS : Nat := 0x08

/-- Modelled from the spec: echo-frame flag bit of the `peak_can` module. -/
def PEAK_MESSAGE_ECHO : Nat := 0x20

/-- Modelled from the spec: error-frame flag bit of the `peak_can` module. -/
def PEAK_MESSAGE_ERRFRAME : Nat := 0x40

/-- `pub enum MessageType { Standard, Extended }` (mod.rs lines 23-27). -/
inductive MessageType where
  | Standard
  | Extended
deriving DecidableEq

/-- `pub enum FrameConstructionError` (mod.rs lines 29-33). -/
inductive FrameConstructionError where
  | TooMuchData
  | CanIdMessageTypeMismatch
deriving DecidableEq

/-- `TPEAKMsg`: the raw classical frame record behind `CanFrame`.
`DATA` models the fixed `[u8; 8]` buffer. -/
structure TPEAKMsg where
  ID : Nat
  MSGTYPE : Nat
  LEN : Nat
  DATA : List Nat
deriving DecidableEq

/-- `pub struct CanFrame { frame: peak_can::TPEAKMsg }` (mod.rs lines 46-49). -/
structure CanFrame where
  frame : TPEAKMsg
deriving DecidableEq

/-- Models the zero-initialised fixed buffer into which the payload bytes are
copied (mod.rs lines 62-65 and 173-176): the result holds `data`
left-justified followed by zeros, for `data.length <= size`. -/
def fillBuffer (size : Nat) (data : List Nat) : List Nat :=
  data ++ List.replicate (size - data.length) 0

/-- `CanFrame::MAX_DLC` (mod.rs line 52). -/
def CanFrame.MAX_DLC : Nat := 8

/-- `CanFrame::new` (mod.rs lines 54-86). -/
def CanFrame.new (can_id : Nat) (msg_type : MessageType) (data : List Nat) :
    Except FrameConstructionError CanFrame :=
  if data.length > CanFrame.MAX_DLC then
    .error .TooMuchData
  else
    match msg_type with
    | .Standard =>
        .ok ⟨⟨can_id &&& STANDARD_MASK, PEAK_MESSAGE_STANDARD, data.length,
              fillBuffer 8 data⟩⟩
    | .Extended =>
        .ok ⟨⟨can_id &&& EXTENDED_MASK, PEAK_MESSAGE_EXTENDED, data.length,
              fillBuffer 8 data⟩⟩

/-- `CanFrame::is_extended_frame` (mod.rs lines 93-95). -/
def CanFrame.is_extended_frame (f : CanFrame) : Bool :=
  f.frame.MSGTYPE &&& PEAK_MESSAGE_EXTENDED != 0

/-- `CanFrame::is_standard_frame` (mod.rs lines 88-91): negation of the
extended check, since the standard flag is the value 0. -/
def CanFrame.is_standard_frame (f : CanFrame) : Bool :=
  !f.is_extended_frame

/-- `CanFrame::can_id` (mod.rs lines 105-111): read-time re-mask by the
current mode. -/
def CanFrame.can_id (f : CanFrame) : Nat :=
  if f.is_standard_frame then
    f.frame.ID &&& STANDARD_MASK
  else
    f.frame.ID &&& EXTENDED_MASK

/-- `CanFrame::dlc` (mod.rs lines 113-115). -/
def CanFrame.dlc (f : CanFrame) : Nat :=
  f.frame.LEN

/-- `CanFrame::data` (mod.rs lines 117-119): the slice `&DATA[0..dlc]`.
On every frame the code actually produces, `dlc <= DATA.length`, so
`List.take` is the exact meaning of the slice. -/
def CanFrame.data (f : CanFrame) : List Nat :=
  f.frame.DATA.take f.dlc

/-- `impl PartialEq for CanFrame` (mod.rs lines 133-153): the sequence of
early-return comparisons. -/
def CanFrame.beq (a b : CanFrame) : Bool :=
  if a.frame.ID ≠ b.frame.ID then false
  else if a.frame.LEN ≠ b.frame.LEN then false
  else if a.frame.MSGTYPE ≠ b.frame.MSGTYPE then false
  else if a.data ≠ b.data then false
  else true

/-- `TPEAKMsgFD`: the raw CAN FD frame record behind `CanFdFrame`.
`DATA` models the fixed `[u8; 64]` buffer. -/
structure TPEAKMsgFD where
  ID : Nat
  MSGTYPE : Nat
  DLC : Nat
  DATA : List Nat
deriving DecidableEq

/-- `pub struct CanFdFrame { frame: peak_can::TPEAKMsgFD }` (mod.rs lines 155-158). -/
structure CanFdFrame where
  frame : TPEAKMsgFD
deriving DecidableEq

/-- `CanFdFrame::MAX_DATA_LENGTH` (mod.rs line 161). -/
def CanFdFrame.MAX_DATA_LENGTH : Nat := 64

/-- `CanFdFrame::calc_dlc` (mod.rs lines 248-260): the range match arms as a
chain of bound checks; the two final arms (`49..=64` and the defensive `_`)
both return 15. -/
def CanFdFrame.calc_dlc (len : Nat) : Nat :=
  if len ≤ 8 then len
  else if len ≤ 12 then 9
  else if len ≤ 16 then 10
  else if len ≤ 20 then 11
  else if len ≤ 24 then 12
  else if len ≤ 32 then 13
  else if len ≤ 48 then 14
  else if len ≤ 64 then 15
  else 15

/-- `CanFdFrame::new` (mod.rs lines 163-201). -/
def CanFdFrame.new (can_id : Nat) (msg_type : MessageType) (data : List Nat)
    (fd : Bool) (brs : Bool) : Except FrameConstructionError CanFdFrame :=
  if data.length > CanFdFrame.MAX_DATA_LENGTH then
    .error .TooMuchData
  else
    match msg_type with
    | .Standard =>
        .ok ⟨⟨can_id &&& STANDARD_MASK,
              PEAK_MESSAGE_STANDARD |||
                (if fd then PEAK_MESSAGE_FD else 0) |||
                (if brs then PEAK_MESSAGE_BRS else 0),
              CanFdFrame.calc_dlc data.length,
              fillBuffer 64 data⟩⟩
    | .Extended =>
        .ok ⟨⟨can_id &&& EXTENDED_MASK,
              PEAK_MESSAGE_EXTENDED |||
                (if fd then PEAK_MESSAGE_FD else 0) |||
                (if brs then PEAK_MESSAGE_BRS else 0),
              CanFdFrame.calc_dlc data.length,
              fillBuffer 64 data⟩⟩

/-- `CanFdFrame::is_standard_frame` (mod.rs lines 203-205): tests the
standard flag bit directly (unlike the classical frame's negation). -/
def CanFdFrame.is_standard_frame (f : CanFdFrame) : Bool :=
  f.frame.MSGTYPE &&& PEAK_MESSAGE_STANDARD != 0

/-- `CanFdFrame::is_extended_frame` (mod.rs lines 207-213). -/
def CanFdFrame.is_extended_frame (f : CanFdFrame) : Bool :=
  if f.frame.MSGTYPE &&& PEAK_MESSAGE_EXTENDED != 0 then true else false

/-- `CanFdFrame::is_fd_frame` (mod.rs lines 223-225). -/
def CanFdFrame.is_fd_frame (f : CanFdFrame) : Bool :=
  f.frame.MSGTYPE &&& PEAK_MESSAGE_FD != 0

/-- `CanFdFrame::can_id` (mod.rs lines 227-233). -/
def CanFdFrame.can_id (f : CanFdFrame) : Nat :=
  if f.is_standard_frame then
    f.frame.ID &&& STANDARD_MASK
  else
    f.frame.ID &&& EXTENDED_MASK

/-- `CanFdFrame::dlc` (mod.rs lines 235-237). -/
def CanFdFrame.dlc (f : CanFdFrame) : Nat :=
  f.frame.DLC

/-- The match body of `CanFdFrame::len` (mod.rs lines 262-274) as a function
of the DLC byte: arms `0..=8`, the eight exact codes, and the defensive
`_ => 64`. -/
def CanFdFrame.lenOfDlc (dlc : Nat) : Nat :=
  if dlc ≤ 8 then dlc
  else if dlc = 9 then 12
  else if dlc = 10 then 16
  else if dlc = 11 then 20
  else if dlc = 12 then 24
  else if dlc = 13 then 32
  else if dlc = 14 then 48
  else if dlc = 15 then 64
  else 64

/-- `CanFdFrame::len` (mod.rs lines 262-274). -/
def CanFdFrame.len (f : CanFdFrame) : Nat :=
  CanFdFrame.lenOfDlc f.dlc

/-- `CanFdFrame::is_empty` (mod.rs lines 276-278). -/
def CanFdFrame.is_empty (f : CanFdFrame) : Bool :=
  f.len == 0

/-- `CanFdFrame::data` (mod.rs lines 239-241): the slice `&DATA[0..len]`. -/
def CanFdFrame.data (f : CanFdFrame) : List Nat :=
  f.frame.DATA.take f.len

/-- `impl PartialEq for CanFdFrame` (mod.rs lines 287-307). -/
def CanFdFrame.beq (a b : CanFdFrame) : Bool :=
  if a.frame.ID ≠ b.frame.ID then false
  else if a.frame.DLC ≠ b.frame.DLC then false
  else if a.frame.MSGTYPE ≠ b.frame.MSGTYPE then false
  else if a.data ≠ b.data then false
  else true

/-- The exactly representable CAN FD payload lengths (spec section 3). -/
def repLengths : List Nat := [0, 1, 2, 3, 4, 5, 6, 7, 8, 12, 16, 20, 24, 32, 48, 64]

/-- `pub struct TimingBoundaries` (mod.rs lines 463-472). -/
structure TimingBoundaries where
  prescaler_min : Nat
  prescaler_max : Nat
  sjw_min : Nat
  sjw_max : Nat
  tseg1_min : Nat
  tseg1_max : Nat
  tseg2_min : Nat
  tseg2_max : Nat

/-- `pub struct FdTimingBoundaries` (mod.rs lines 507-524). -/
structure FdTimingBoundaries where
  nom_prescaler_min : Nat
  nom_prescaler_max : Nat
  nom_sjw_min : Nat
  nom_sjw_max : Nat
  nom_tseg1_min : Nat
  nom_tseg1_max : Nat
  nom_tseg2_min : Nat
  nom_tseg2_max : Nat
  data_prescaler_min : Nat
  data_prescaler_max : Nat
  data_sjw_min : Nat
  data_sjw_max : Nat
  data_tseg1_min : Nat
  data_tseg1_max : Nat
  data_tseg2_min : Nat
  data_tseg2_max : Nat

/-- `pub const CAN_TIMING_BOUNDARIES` (mod.rs lines 543-552). -/
def CAN_TIMING_BOUNDARIES : TimingBoundaries :=
  { prescaler_min := 1
    prescaler_max := 64
    sjw_min := 1
    sjw_max := 4
    tseg1_min := 1
    tseg1_max := 16
    tseg2_min := 1
    tseg2_max := 8 }

/-- `pub const CANFD_TIMING_BOUNDARIES` (mod.rs lines 578-595). -/
def CANFD_TIMING_BOUNDARIES : FdTimingBoundaries :=
  { nom_prescaler_min := 1
    nom_prescaler_max := 1024
    nom_sjw_min := 1
    nom_sjw_max := 128
    nom_tseg1_min := 1
    nom_tseg1_max := 256
    nom_tseg2_min := 1
    nom_tseg2_max := 128
    data_prescaler_min := 1
    data_prescaler_max := 1024
    data_sjw_min := 1
    data_sjw_max := 16
    data_tseg1_min := 1
    data_tseg1_max := 32
    data_tseg2_min := 1
    data_tseg2_max := 16 }

/-- `pub struct CanBitTiming` (mod.rs lines 597-602). -/
structure CanBitTiming where
  prescaler : Nat
  sjw : Nat
  tseg1 : Nat
  tseg2 : Nat
deriving DecidableEq

/-- `CanBitTiming::validate` (mod.rs lines 620-643): the sequence of
early-return range checks. -/
def CanBitTiming.validate (timing : CanBitTiming) : Bool :=
  if timing.prescaler < CAN_TIMING_BOUNDARIES.prescaler_min
      ∨ timing.prescaler > CAN_TIMING_BOUNDARIES.prescaler_max then false
  else if timing.sjw < CAN_TIMING_BOUNDARIES.sjw_min
      ∨ timing.sjw > CAN_TIMING_BOUNDARIES.sjw_max then false
  else if timing.tseg1 < CAN_TIMING_BOUNDARIES.tseg1_min
      ∨ timing.tseg1 > CAN_TIMING_BOUNDARIES.tseg1_max then false
  else if timing.tseg2 < CAN_TIMING_BOUNDARIES.tseg2_min
      ∨ timing.tseg2 > CAN_TIMING_BOUNDARIES.tseg2_max then false
  else true

/-- `CanBitTiming::new` (mod.rs lines 604-618); the boxed error value is
modelled by its message string. -/
def CanBitTiming.new (prescaler sjw tseg1 tseg2 : Nat) :
    Except String CanBitTiming :=
  let timing : CanBitTiming := ⟨prescaler, sjw, tseg1, tseg2⟩
  if CanBitTiming.validate timing then
    .ok timing
  else
    .error "Timing parameters are out of bounds"

/-- `pub struct CanFdBitTiming` (mod.rs lines 645-654). -/
structure CanFdBitTiming where
  nom_prescaler : Nat
  nom_sjw : Nat
  nom_tseg1 : Nat
  nom_tseg2 : Nat
  data_prescaler : Nat
  data_sjw : Nat
  data_tseg1 : Nat
  data_tseg2 : Nat
deriving DecidableEq

/-- `CanFdBitTiming::validate` (mod.rs lines 676-719). -/
def CanFdBitTiming.validate (timing : CanFdBitTiming) : Bool :=
  if timing.nom_prescaler < CANFD_TIMING_BOUNDARIES.nom_prescaler_min
      ∨ timing.nom_prescaler > CANFD_TIMING_BOUNDARIES.nom_prescaler_max then false
  else if timing.nom_sjw < CANFD_TIMING_BOUNDARIES.nom_sjw_min
      ∨ timing.nom_sjw > CANFD_TIMING_BOUNDARIES.nom_sjw_max then false
  else if timing.nom_tseg1 < CANFD_TIMING_BOUNDARIES.nom_tseg1_min
      ∨ timing.nom_tseg1 > CANFD_TIMING_BOUNDARIES.nom_tseg1_max then false
  else if timing.nom_tseg2 < CANFD_TIMING_BOUNDARIES.nom_tseg2_min
      ∨ timing.nom_tseg2 > CANFD_TIMING_BOUNDARIES.nom_tseg2_max then false
  else if timing.data_prescaler < CANFD_TIMING_BOUNDARIES.data_prescaler_min
      ∨ timing.data_prescaler > CANFD_TIMING_BOUNDARIES.data_prescaler_max then false
  else if timing.data_sjw < CANFD_TIMING_BOUNDARIES.data_sjw_min
      ∨ timing.data_sjw > CANFD_TIMING_BOUNDARIES.data_sjw_max then false
  else if timing.data_tseg1 < CANFD_TIMING_BOUNDARIES.data_tseg1_min
      ∨ timing.data_tseg1 > CANFD_TIMING_BOUNDARIES.data_tseg1_max then false
  else if timing.data_tseg2 < CANFD_TIMING_BOUNDARIES.data_tseg2_min
      ∨ timing.data_tseg2 > CANFD_TIMING_BOUNDARIES.data_tseg2_max then false
  else true

/-- `CanFdBitTiming::new` (mod.rs lines 656-674). -/
def CanFdBitTiming.new (nom_prescaler nom_sjw nom_tseg1 nom_tseg2
    data_prescaler data_sjw data_tseg1 data_tseg2 : Nat) :
    Except String CanFdBitTiming :=
  let timing : CanFdBitTiming :=
    ⟨nom_prescaler, nom_sjw, nom_tseg1, nom_tseg2,
     data_prescaler, data_sjw, data_tseg1, data_tseg2⟩
  if CanFdBitTiming.validate timing then
    .ok timing
  else
    .error "Timing parameters are out of bounds"

/-! ## Helper lemmas -/

theorem fillBuffer_length {size : Nat} {d : List Nat} (h : d.length ≤ size) :
    (fillBuffer size d).length = size := by
  simp [fillBuffer]
  omega

theorem take_fillBuffer {d : List Nat} {size L : Nat} (h1 : d.length ≤ L)
    (h2 : L ≤ size) :
    (fillBuffer size d).take L = d ++ List.replicate (L - d.length) 0 := by
  unfold fillBuffer
  rw [List.take_append_eq_append_take, List.take_of_length_le h1,
    List.take_replicate]
  congr 2
  omega

theorem CanFrame.new_error (id : Nat) (mt : MessageType) (d : List Nat)
    (h : 8 < d.length) : CanFrame.new id mt d = .error .TooMuchData := by
  unfold CanFrame.new
  rw [if_pos (by simpa [CanFrame.MAX_DLC] using h)]

theorem CanFrame.new_standard (id : Nat) (d : List Nat) (h : d.length ≤ 8) :
    CanFrame.new id .Standard d =
      .ok ⟨⟨id &&& STANDARD_MASK, PEAK_MESSAGE_STANDARD, d.length,
            fillBuffer 8 d⟩⟩ := by
  unfold CanFrame.new
  rw [if_neg (by simp [CanFrame.MAX_DLC]; omega)]

theorem CanFrame.new_extended (id : Nat) (d : List Nat) (h : d.length ≤ 8) :
    CanFrame.new id .Extended d =
      .ok ⟨⟨id &&& EXTENDED_MASK, PEAK_MESSAGE_EXTENDED, d.length,
            fillBuffer 8 d⟩⟩ := by
  unfold CanFrame.new
  rw [if_neg (by simp [CanFrame.MAX_DLC]; omega)]

theorem CanFrame.new_ok_length {id : Nat} {mt : MessageType} {d : List Nat}
    {f : CanFrame} (h : CanFrame.new id mt d = .ok f) : d.length ≤ 8 := by
  by_contra hc
  rw [CanFrame.new_error id mt d (by omega)] at h
  exact Except.noConfusion h

theorem CanFdFrame.new_fd_error (id : Nat) (mt : MessageType) (d : List Nat)
    (fd brs : Bool) (h : 64 < d.length) :
    CanFdFrame.new id mt d fd brs = .error .TooMuchData := by
  unfold CanFdFrame.new
  rw [if_pos (by simpa [CanFdFrame.MAX_DATA_LENGTH] using h)]

theorem CanFdFrame.new_fd_standard (id : Nat) (d : List Nat) (fd brs : Bool)
    (h : d.length ≤ 64) :
    CanFdFrame.new id .Standard d fd brs =
      .ok ⟨⟨id &&& STANDARD_MASK,
            PEAK_MESSAGE_STANDARD |||
              (if fd then PEAK_MESSAGE_FD else 0) |||
              (if brs then PEAK_MESSAGE_BRS else 0),
            CanFdFrame.calc_dlc d.length,
            fillBuffer 64 d⟩⟩ := by
  unfold CanFdFrame.new
  rw [if_neg (by simp [CanFdFrame.MAX_DATA_LENGTH]; omega)]

theorem CanFdFrame.new_fd_extended (id : Nat) (d : List Nat) (fd brs : Bool)
    (h : d.length ≤ 64) :
    CanFdFrame.new id .Extended d fd brs =
      .ok ⟨⟨id &&& EXTENDED_MASK,
            PEAK_MESSAGE_EXTENDED |||
              (if fd then PEAK_MESSAGE_FD else 0) |||
              (if brs then PEAK_MESSAGE_BRS else 0),
            CanFdFrame.calc_dlc d.length,
            fillBuffer 64 d⟩⟩ := by
  unfold CanFdFrame.new
  rw [if_neg (by simp [CanFdFrame.MAX_DATA_LENGTH]; omega)]

theorem CanFdFrame.new_fd_ok_length {id : Nat} {mt : MessageType} {d : List Nat}
    {fd brs : Bool} {f : CanFdFrame}
    (h : CanFdFrame.new id mt d fd brs = .ok f) : d.length ≤ 64 := by
  by_contra hc
  rw [CanFdFrame.new_fd_error id mt d fd brs (by omega)] at h
  exact Except.noConfusion h

theorem CanFdFrame.lenOfDlc_le (dlc : Nat) : CanFdFrame.lenOfDlc dlc ≤ 64 := by
  unfold CanFdFrame.lenOfDlc
  repeat' split
  all_goals omega

theorem lenOfDlc_calc_dlc_bounds : ∀ n < 65,
    n ≤ CanFdFrame.lenOfDlc (CanFdFrame.calc_dlc n) ∧
    CanFdFrame.lenOfDlc (CanFdFrame.calc_dlc n) ≤ 64 := by decide

theorem land_std_ext (x : Nat) : (x &&& 2047) &&& 536870911 = x &&& 2047 := by
  rw [Nat.land_assoc, show (2047 : Nat) &&& 536870911 = 2047 from by decide]

/-! ## Claim theorems -/

/-- C1: the FD DLC codec rounds up: for every `n` in the representable set
{0,...,8,12,16,20,24,32,48,64}, `len (calc_dlc n) = n`; for every other
`n ≤ 64`, `len (calc_dlc n)` is representable, at least `n`, and the
smallest representable length at least `n`; concretely `calc_dlc 9 = 9`,
`len 9 = 12`, `calc_dlc 25 = 13`, `len 13 = 32`; and for every `n > 64`,
`calc_dlc n = 15` (defensive clamp). -/
theorem spec_c1 :
    (∀ n ∈ repLengths, CanFdFrame.lenOfDlc (CanFdFrame.calc_dlc n) = n) ∧
    (∀ n < 65, CanFdFrame.lenOfDlc (CanFdFrame.calc_dlc n) ∈ repLengths ∧
      n ≤ CanFdFrame.lenOfDlc (CanFdFrame.calc_dlc n) ∧
      ∀ m ∈ repLengths, n ≤ m → CanFdFrame.lenOfDlc (CanFdFrame.calc_dlc n) ≤ m) ∧
    CanFdFrame.calc_dlc 9 = 9 ∧ CanFdFrame.lenOfDlc 9 = 12 ∧
    CanFdFrame.calc_dlc 25 = 13 ∧ CanFdFrame.lenOfDlc 13 = 32 ∧
    (∀ n, 64 < n → CanFdFrame.calc_dlc n = 15) := by
  refine ⟨by decide, by decide, by decide, by decide, by decide, by decide, ?_⟩
  intro n hn
  unfold CanFdFrame.calc_dlc
  repeat rw [if_neg (by omega)]

/-- Witness for C1 at concrete inputs: round-trip at 12, round-up at 9, and
the defensive clamp at 100. -/
theorem spec_c1_witness :
    CanFdFrame.lenOfDlc (CanFdFrame.calc_dlc 12) = 12 ∧
    9 ≤ CanFdFrame.lenOfDlc (CanFdFrame.calc_dlc 9) ∧
    CanFdFrame.calc_dlc 100 = 15 :=
  ⟨spec_c1.1 12 (by decide), (spec_c1.2.1 9 (by decide)).2.1,
   spec_c1.2.2.2.2.2.2 100 (by decide)⟩

/-- C2: for every identifier, a frame constructed in Standard mode reports
`can_id = identifier &&& 0x7FF` and one constructed in Extended mode reports
`can_id = identifier &&& 0x1FFFFFFF`, for both `CanFrame` and `CanFdFrame`;
out-of-range identifiers are silently masked, never rejected. -/
theorem spec_c2 : ∀ (id : Nat) (d : List Nat) (fd brs : Bool),
    (∀ f, CanFrame.new id .Standard d = .ok f → f.can_id = id &&& 0x7FF) ∧
    (∀ f, CanFrame.new id .Extended d = .ok f → f.can_id = id &&& 0x1FFFFFFF) ∧
    (∀ f, CanFdFrame.new id .Standard d fd brs = .ok f → f.can_id = id &&& 0x7FF) ∧
    (∀ f, CanFdFrame.new id .Extended d fd brs = .ok f → f.can_id = id &&& 0x1FFFFFFF) ∧
    (d.length ≤ 8 → ∃ f, CanFrame.new id .Standard d = .ok f) ∧
    (d.length ≤ 64 → ∃ f, CanFdFrame.new id .Extended d fd brs = .ok f) := by
  intro id d fd brs
  refine ⟨?_, ?_, ?_, ?_, ?_, ?_⟩
  · intro f h
    rw [CanFrame.new_standard id d (CanFrame.new_ok_length h)] at h
    injection h with h
    subst h
    simp [CanFrame.can_id, CanFrame.is_standard_frame, CanFrame.is_extended_frame,
      PEAK_MESSAGE_STANDARD, PEAK_MESSAGE_EXTENDED, STANDARD_MASK, Nat.land_assoc]
  · intro f h
    rw [CanFrame.new_extended id d (CanFrame.new_ok_length h)] at h
    injection h with h
    subst h
    simp [CanFrame.can_id, CanFrame.is_standard_frame, CanFrame.is_extended_frame,
      PEAK_MESSAGE_STANDARD, PEAK_MESSAGE_EXTENDED, EXTENDED_MASK, Nat.land_assoc]
  · intro f h
    rw [CanFdFrame.new_fd_standard id d fd brs (CanFdFrame.new_fd_ok_length h)] at h
    injection h with h
    subst h
    cases fd <;> cases brs <;>
      simp [CanFdFrame.can_id, CanFdFrame.is_standard_frame,
        PEAK_MESSAGE_STANDARD, PEAK_MESSAGE_FD, PEAK_MESSAGE_BRS,
        STANDARD_MASK, EXTENDED_MASK, land_std_ext]
  · intro f h
    rw [CanFdFrame.new_fd_extended id d fd brs (CanFdFrame.new_fd_ok_length h)] at h
    injection h with h
    subst h
    cases fd <;> cases brs <;>
      simp [CanFdFrame.can_id, CanFdFrame.is_standard_frame,
        PEAK_MESSAGE_STANDARD, PEAK_MESSAGE_EXTENDED, PEAK_MESSAGE_FD,
        PEAK_MESSAGE_BRS, EXTENDED_MASK, Nat.land_assoc]
  · intro hd
    exact ⟨_, CanFrame.new_standard id d hd⟩
  · intro hd
    exact ⟨_, CanFdFrame.new_fd_extended id d fd brs hd⟩

/-- Witness for C2: identifier 0x1EC57ED0 masks to 0x06D0 under Standard and
stays 0x1EC57ED0 under Extended, and construction succeeds. -/
theorem spec_c2_witness :
    (CanFrame.mk ⟨0x6D0, PEAK_MESSAGE_STANDARD, 3, [0, 1, 2, 0, 0, 0, 0, 0]⟩).can_id
      = 0x1EC57ED0 &&& 0x7FF ∧
    (CanFrame.mk ⟨0x1EC57ED0, PEAK_MESSAGE_EXTENDED, 3, [0, 1, 2, 0, 0, 0, 0, 0]⟩).can_id
      = 0x1EC57ED0 &&& 0x1FFFFFFF ∧
    (∃ f, CanFrame.new 0x1EC57ED0 .Standard [0, 1, 2] = .ok f) :=
  ⟨(spec_c2 0x1EC57ED0 [0, 1, 2] false false).1 _ rfl,
   (spec_c2 0x1EC57ED0 [0, 1, 2] false false).2.1 _ rfl,
   (spec_c2 0x1EC57ED0 [0, 1, 2] false false).2.2.2.2.1 (by decide)⟩

/-- C3 counterexample: the frame built by `CanFdFrame::new` with
`MessageType::Standard` reports `is_standard_frame = false`, because the FD
standard check masks with the standard flag, which is the value 0 — the
claim requires `true` here. -/
theorem spec_c3_counterexample :
    (CanFdFrame.new 0x20 .Standard [] false false).toOption.map
      CanFdFrame.is_standard_frame = some false := by decide

/-- C3 amended: for every frame returned by `CanFdFrame::new`,
`is_standard_frame` is always `false` (the standard flag is 0, so the FD
direct bit test can never fire), `is_extended_frame` is `true` exactly for
Extended-mode construction, and `is_fd_frame` returns exactly the `fd`
argument. -/
theorem spec_c3_amended : ∀ (id : Nat) (d : List Nat) (fd brs : Bool),
    (∀ f, CanFdFrame.new id .Standard d fd brs = .ok f →
        f.is_standard_frame = false ∧ f.is_extended_frame = false ∧
        f.is_fd_frame = fd) ∧
    (∀ f, CanFdFrame.new id .Extended d fd brs = .ok f →
        f.is_standard_frame = false ∧ f.is_extended_frame = true ∧
        f.is_fd_frame = fd) := by
  intro id d fd brs
  constructor
  · intro f h
    rw [CanFdFrame.new_fd_standard id d fd brs (CanFdFrame.new_fd_ok_length h)] at h
    injection h with h
    subst h
    cases fd <;> cases brs <;>
      simp [CanFdFrame.is_standard_frame, CanFdFrame.is_extended_frame,
        CanFdFrame.is_fd_frame, PEAK_MESSAGE_STANDARD, PEAK_MESSAGE_EXTENDED,
        PEAK_MESSAGE_FD, PEAK_MESSAGE_BRS] <;> decide
  · intro f h
    rw [CanFdFrame.new_fd_extended id d fd brs (CanFdFrame.new_fd_ok_length h)] at h
    injection h with h
    subst h
    cases fd <;> cases brs <;>
      simp [CanFdFrame.is_standard_frame, CanFdFrame.is_extended_frame,
        CanFdFrame.is_fd_frame, PEAK_MESSAGE_STANDARD, PEAK_MESSAGE_EXTENDED,
        PEAK_MESSAGE_FD, PEAK_MESSAGE_BRS] <;> decide

/-- Witness for the amended C3 at concrete inputs. -/
theorem spec_c3_witness :
    ((CanFdFrame.mk ⟨0x20, PEAK_MESSAGE_STANDARD ||| PEAK_MESSAGE_FD ||| 0, 2,
        fillBuffer 64 [1, 2]⟩).is_standard_frame = false ∧
      (CanFdFrame.mk ⟨0x20, PEAK_MESSAGE_STANDARD ||| PEAK_MESSAGE_FD ||| 0, 2,
        fillBuffer 64 [1, 2]⟩).is_extended_frame = false ∧
      (CanFdFrame.mk ⟨0x20, PEAK_MESSAGE_STANDARD ||| PEAK_MESSAGE_FD ||| 0, 2,
        fillBuffer 64 [1, 2]⟩).is_fd_frame = true) ∧
    ((CanFdFrame.mk ⟨0x20, PEAK_MESSAGE_EXTENDED ||| 0 ||| 0, 2,
        fillBuffer 64 [1, 2]⟩).is_standard_frame = false ∧
      (CanFdFrame.mk ⟨0x20, PEAK_MESSAGE_EXTENDED ||| 0 ||| 0, 2,
        fillBuffer 64 [1, 2]⟩).is_extended_frame = true ∧
      (CanFdFrame.mk ⟨0x20, PEAK_MESSAGE_EXTENDED ||| 0 ||| 0, 2,
        fillBuffer 64 [1, 2]⟩).is_fd_frame = false) :=
  ⟨(spec_c3_amended 0x20 [1, 2] true false).1 _ rfl,
   (spec_c3_amended 0x20 [1, 2] false false).2 _ rfl⟩

/-- C4: `CanFrame::new` fails with `TooMuchData`, producing no frame, iff
the payload length exceeds 8, and `CanFdFrame::new` fails with
`TooMuchData` iff the payload length exceeds 64; `TooMuchData` is the only
error either constructor returns. -/
theorem spec_c4 : ∀ (id : Nat) (mt : MessageType) (d : List Nat) (fd brs : Bool),
    ((∃ f, CanFrame.new id mt d = .ok f) ↔ d.length ≤ 8) ∧
    (CanFrame.new id mt d = .error .TooMuchData ↔ 8 < d.length) ∧
    (∀ e, CanFrame.new id mt d = .error e → e = .TooMuchData) ∧
    ((∃ f, CanFdFrame.new id mt d fd brs = .ok f) ↔ d.length ≤ 64) ∧
    (CanFdFrame.new id mt d fd brs = .error .TooMuchData ↔ 64 < d.length) ∧
    (∀ e, CanFdFrame.new id mt d fd brs = .error e → e = .TooMuchData) := by
  intro id mt d fd brs
  refine ⟨⟨fun ⟨f, hf⟩ => CanFrame.new_ok_length hf, fun h => ?_⟩,
    ⟨fun h => ?_, fun h => CanFrame.new_error id mt d h⟩, fun e he => ?_,
    ⟨fun ⟨f, hf⟩ => CanFdFrame.new_fd_ok_length hf, fun h => ?_⟩,
    ⟨fun h => ?_, fun h => CanFdFrame.new_fd_error id mt d fd brs h⟩, fun e he => ?_⟩
  · cases mt
    · exact ⟨_, CanFrame.new_standard id d h⟩
    · exact ⟨_, CanFrame.new_extended id d h⟩
  · by_contra hc
    cases mt
    · rw [CanFrame.new_standard id d (by omega)] at h
      exact Except.noConfusion h
    · rw [CanFrame.new_extended id d (by omega)] at h
      exact Except.noConfusion h
  · by_cases hd : 8 < d.length
    · rw [CanFrame.new_error id mt d hd] at he
      injection he with he
      exact he.symm
    · cases mt
      · rw [CanFrame.new_standard id d (by omega)] at he
        exact Except.noConfusion he
      · rw [CanFrame.new_extended id d (by omega)] at he
        exact Except.noConfusion he
  · cases mt
    · exact ⟨_, CanFdFrame.new_fd_standard id d fd brs h⟩
    · exact ⟨_, CanFdFrame.new_fd_extended id d fd brs h⟩
  · by_contra hc
    cases mt
    · rw [CanFdFrame.new_fd_standard id d fd brs (by omega)] at h
      exact Except.noConfusion h
    · rw [CanFdFrame.new_fd_extended id d fd brs (by omega)] at h
      exact Except.noConfusion h
  · by_cases hd : 64 < d.length
    · rw [CanFdFrame.new_fd_error id mt d fd brs hd] at he
      injection he with he
      exact he.symm
    · cases mt
      · rw [CanFdFrame.new_fd_standard id d fd brs (by omega)] at he
        exact Except.noConfusion he
      · rw [CanFdFrame.new_fd_extended id d fd brs (by omega)] at he
        exact Except.noConfusion he

/-- Witness for C4 at the boundaries: payload length 8 succeeds and 9 fails
for the classical constructor; 64 succeeds and 65 fails for the FD one. -/
theorem spec_c4_witness :
    (∃ f, CanFrame.new 0x20 .Standard (List.replicate 8 0) = .ok f) ∧
    CanFrame.new 0x20 .Standard (List.replicate 9 0) = .error .TooMuchData ∧
    (∃ f, CanFdFrame.new 0x20 .Standard (List.replicate 64 0) false false = .ok f) ∧
    CanFdFrame.new 0x20 .Standard (List.replicate 65 0) false false
      = .error .TooMuchData :=
  ⟨(spec_c4 0x20 .Standard (List.replicate 8 0) false false).1.mpr (by decide),
   (spec_c4 0x20 .Standard (List.replicate 9 0) false false).2.1.mpr (by decide),
   (spec_c4 0x20 .Standard (List.replicate 64 0) false false).2.2.2.1.mpr (by decide),
   (spec_c4 0x20 .Standard (List.replicate 65 0) false false).2.2.2.2.1.mpr (by decide)⟩

/-- C5: for every identifier, mode, and payload of length at most 8, the
frame returned by `CanFrame::new` satisfies `data = payload` and
`dlc = payload.length`, and its 8-byte buffer holds the payload
left-justified with zero padding. -/
theorem spec_c5 : ∀ (id : Nat) (mt : MessageType) (d : List Nat) (f : CanFrame),
    CanFrame.new id mt d = .ok f →
      f.data = d ∧ f.dlc = d.length ∧
      f.frame.DATA = d ++ List.replicate (8 - d.length) 0 ∧
      f.frame.DATA.length = 8 := by
  intro id mt d f h
  have hd := CanFrame.new_ok_length h
  cases mt
  all_goals
    first
    | rw [CanFrame.new_standard id d hd] at h
    | rw [CanFrame.new_extended id d hd] at h
  all_goals
    injection h with h
    subst h
    refine ⟨?_, rfl, rfl, fillBuffer_length hd⟩
    simp [CanFrame.data, CanFrame.dlc, fillBuffer, List.take_left]

/-- Witness for C5: payload [1, 2, 3] under Standard mode. -/
theorem spec_c5_witness :
    (CanFrame.mk ⟨0x20, PEAK_MESSAGE_STANDARD, 3, fillBuffer 8 [1, 2, 3]⟩).data
      = [1, 2, 3] ∧
    (CanFrame.mk ⟨0x20, PEAK_MESSAGE_STANDARD, 3, fillBuffer 8 [1, 2, 3]⟩).dlc = 3 ∧
    (CanFrame.mk ⟨0x20, PEAK_MESSAGE_STANDARD, 3, fillBuffer 8 [1, 2, 3]⟩).frame.DATA
      = [1, 2, 3] ++ List.replicate 5 0 :=
  have hc := spec_c5 0x20 .Standard [1, 2, 3]
    ⟨⟨0x20, PEAK_MESSAGE_STANDARD, 3, fillBuffer 8 [1, 2, 3]⟩⟩ rfl
  ⟨hc.1, hc.2.1, hc.2.2.1⟩

/-- C6: every frame built by `CanFdFrame::new` from a payload of length
`n <= 64` stores only the DLC computed by the codec; `data` has length
`len`, which decodes the stored DLC and is at least `n`; the first `n`
bytes of `data` are the payload and all bytes from position `n` on are
zero. -/
theorem spec_c6 : ∀ (id : Nat) (mt : MessageType) (d : List Nat)
    (fd brs : Bool) (f : CanFdFrame),
    CanFdFrame.new id mt d fd brs = .ok f →
      f.frame.DLC = CanFdFrame.calc_dlc d.length ∧
      f.len = CanFdFrame.lenOfDlc f.frame.DLC ∧
      d.length ≤ f.len ∧
      f.data.length = f.len ∧
      f.data = d ++ List.replicate (f.len - d.length) 0 := by
  intro id mt d fd brs f h
  have hd := CanFdFrame.new_fd_ok_length h
  have hb := lenOfDlc_calc_dlc_bounds d.length (by omega)
  cases mt
  all_goals
    first
    | rw [CanFdFrame.new_fd_standard id d fd brs hd] at h
    | rw [CanFdFrame.new_fd_extended id d fd brs hd] at h
  all_goals
    injection h with h
    subst h
    refine ⟨rfl, rfl, hb.1, ?_, ?_⟩
  case Standard.refine_1 =>
    simp only [CanFdFrame.data, CanFdFrame.len, CanFdFrame.dlc]
    rw [List.length_take, fillBuffer_length hd]
    omega
  case Standard.refine_2 =>
    simp only [CanFdFrame.data, CanFdFrame.len, CanFdFrame.dlc]
    exact take_fillBuffer hb.1 hb.2
  case Extended.refine_1 =>
    simp only [CanFdFrame.data, CanFdFrame.len, CanFdFrame.dlc]
    rw [List.length_take, fillBuffer_length hd]
    omega
  case Extended.refine_2 =>
    simp only [CanFdFrame.data, CanFdFrame.len, CanFdFrame.dlc]
    exact take_fillBuffer hb.1 hb.2

/-- Witness for C6: a 9-byte payload rounds up to a 12-byte data view with
three zero padding bytes. -/
theorem spec_c6_witness :
    9 ≤ (CanFdFrame.mk ⟨0x123, 0, 9, fillBuffer 64 (List.replicate 9 1)⟩).len ∧
    (CanFdFrame.mk ⟨0x123, 0, 9, fillBuffer 64 (List.replicate 9 1)⟩).data
      = List.replicate 9 1 ++ List.replicate 3 0 :=
  have hc := spec_c6 0x123 .Standard (List.replicate 9 1) false false
    ⟨⟨0x123, 0, 9, fillBuffer 64 (List.replicate 9 1)⟩⟩ rfl
  ⟨hc.2.2.1, hc.2.2.2.2⟩

/-- C7: for both frame types, equality holds iff identifier, length field
(DLC for FD), message-type flags, and the meaningful byte range (the first
`length`/`len` data bytes) all agree; padding beyond the meaningful range
never influences equality, and frames differing in identifier, length/DLC,
or flags are unequal regardless of data. -/
theorem spec_c7 :
    (∀ a b : CanFrame,
      (CanFrame.beq a b = true ↔
        (a.frame.ID = b.frame.ID ∧ a.frame.LEN = b.frame.LEN ∧
         a.frame.MSGTYPE = b.frame.MSGTYPE ∧
         a.frame.DATA.take a.frame.LEN = b.frame.DATA.take b.frame.LEN))) ∧
    (∀ a b : CanFrame,
      a.frame.ID ≠ b.frame.ID ∨ a.frame.LEN ≠ b.frame.LEN ∨
        a.frame.MSGTYPE ≠ b.frame.MSGTYPE →
      CanFrame.beq a b = false) ∧
    (∀ a b : CanFdFrame,
      (CanFdFrame.beq a b = true ↔
        (a.frame.ID = b.frame.ID ∧ a.frame.DLC = b.frame.DLC ∧
         a.frame.MSGTYPE = b.frame.MSGTYPE ∧
         a.frame.DATA.take a.len = b.frame.DATA.take b.len))) ∧
    (∀ a b : CanFdFrame,
      a.frame.ID ≠ b.frame.ID ∨ a.frame.DLC ≠ b.frame.DLC ∨
        a.frame.MSGTYPE ≠ b.frame.MSGTYPE →
      CanFdFrame.beq a b = false) := by
  refine ⟨?_, ?_, ?_, ?_⟩
  · intro a b
    unfold CanFrame.beq
    simp only [CanFrame.data, CanFrame.dlc]
    repeat' split
    all_goals simp_all
  · intro a b h
    unfold CanFrame.beq
    repeat' split
    all_goals simp_all
  · intro a b
    unfold CanFdFrame.beq
    simp only [CanFdFrame.data]
    repeat' split
    all_goals simp_all
  · intro a b h
    unfold CanFdFrame.beq
    repeat' split
    all_goals simp_all

/-- Witness for C7: padding bytes beyond the meaningful range do not break
equality, while a differing identifier or DLC forces inequality. -/
theorem spec_c7_witness :
    CanFrame.beq ⟨⟨1, 0, 1, [5, 1, 0, 0, 0, 0, 0, 0]⟩⟩
      ⟨⟨1, 0, 1, [5, 2, 0, 0, 0, 0, 0, 0]⟩⟩ = true ∧
    CanFrame.beq ⟨⟨1, 0, 1, [5, 0, 0, 0, 0, 0, 0, 0]⟩⟩
      ⟨⟨2, 0, 1, [5, 0, 0, 0, 0, 0, 0, 0]⟩⟩ = false ∧
    CanFdFrame.beq ⟨⟨7, 0, 2, 1 :: 2 :: List.replicate 62 7⟩⟩
      ⟨⟨7, 0, 2, 1 :: 2 :: List.replicate 62 9⟩⟩ = true ∧
    CanFdFrame.beq ⟨⟨7, 0, 2, 1 :: 2 :: List.replicate 62 7⟩⟩
      ⟨⟨7, 0, 3, 1 :: 2 :: List.replicate 62 7⟩⟩ = false :=
  ⟨(spec_c7.1 _ _).mpr (by decide),
   spec_c7.2.1 _ _ (Or.inl (by decide)),
   (spec_c7.2.2.1 _ _).mpr (by decide),
   spec_c7.2.2.2 _ _ (Or.inr (Or.inl (by decide)))⟩

theorem CanBitTiming.validate_iff (p s t1 t2 : Nat) :
    CanBitTiming.validate ⟨p, s, t1, t2⟩ = true ↔
      (1 ≤ p ∧ p ≤ 64 ∧ 1 ≤ s ∧ s ≤ 4 ∧ 1 ≤ t1 ∧ t1 ≤ 16 ∧
       1 ≤ t2 ∧ t2 ≤ 8) := by
  unfold CanBitTiming.validate
  simp only [CAN_TIMING_BOUNDARIES]
  repeat' split
  all_goals simp
  all_goals omega

theorem CanFdBitTiming.validate_fd_iff (np ns nt1 nt2 dp ds dt1 dt2 : Nat) :
    CanFdBitTiming.validate ⟨np, ns, nt1, nt2, dp, ds, dt1, dt2⟩ = true ↔
      (1 ≤ np ∧ np ≤ 1024 ∧ 1 ≤ ns ∧ ns ≤ 128 ∧ 1 ≤ nt1 ∧ nt1 ≤ 256 ∧
       1 ≤ nt2 ∧ nt2 ≤ 128 ∧ 1 ≤ dp ∧ dp ≤ 1024 ∧ 1 ≤ ds ∧ ds ≤ 16 ∧
       1 ≤ dt1 ∧ dt1 ≤ 32 ∧ 1 ≤ dt2 ∧ dt2 ≤ 16) := by
  unfold CanFdBitTiming.validate
  simp only [CANFD_TIMING_BOUNDARIES]
  repeat' split
  all_goals simp
  all_goals omega

/-- C8: `CanBitTiming::new` succeeds iff prescaler is in [1,64], sjw in
[1,4], tseg1 in [1,16], and tseg2 in [1,8], all inclusive, and every
failure carries the single generic out-of-bounds message naming no field. -/
theorem spec_c8 : ∀ p s t1 t2 : Nat,
    ((∃ t, CanBitTiming.new p s t1 t2 = .ok t) ↔
      (1 ≤ p ∧ p ≤ 64 ∧ 1 ≤ s ∧ s ≤ 4 ∧ 1 ≤ t1 ∧ t1 ≤ 16 ∧
       1 ≤ t2 ∧ t2 ≤ 8)) ∧
    (∀ e, CanBitTiming.new p s t1 t2 = .error e →
      e = "Timing parameters are out of bounds") := by
  intro p s t1 t2
  have hval := CanBitTiming.validate_iff p s t1 t2
  constructor
  · by_cases hv : CanBitTiming.validate ⟨p, s, t1, t2⟩ = true
    · simp only [CanBitTiming.new, if_pos hv]
      exact ⟨fun _ => hval.mp hv, fun _ => ⟨_, rfl⟩⟩
    · simp only [CanBitTiming.new, if_neg hv]
      constructor
      · intro h
        obtain ⟨t, ht⟩ := h
        exact Except.noConfusion ht
      · intro hr
        exact absurd (hval.mpr hr) hv
  · intro e he
    by_cases hv : CanBitTiming.validate ⟨p, s, t1, t2⟩ = true
    · simp only [CanBitTiming.new, if_pos hv] at he
      exact Except.noConfusion he
    · simp only [CanBitTiming.new, if_neg hv] at he
      injection he with he
      exact he.symm

/-- Witness for C8: the all-minima and all-maxima assignments are accepted;
prescaler 0 and 65, sjw 5, tseg1 17 and tseg2 9 are rejected. -/
theorem spec_c8_witness :
    (∃ t, CanBitTiming.new 1 1 1 1 = .ok t) ∧
    (∃ t, CanBitTiming.new 64 4 16 8 = .ok t) ∧
    ¬(∃ t, CanBitTiming.new 0 1 1 1 = .ok t) ∧
    ¬(∃ t, CanBitTiming.new 65 1 1 1 = .ok t) ∧
    ¬(∃ t, CanBitTiming.new 1 5 1 1 = .ok t) ∧
    ¬(∃ t, CanBitTiming.new 1 1 17 1 = .ok t) ∧
    ¬(∃ t, CanBitTiming.new 1 1 1 9 = .ok t) :=
  ⟨(spec_c8 1 1 1 1).1.mpr (by decide),
   (spec_c8 64 4 16 8).1.mpr (by decide),
   fun h => absurd ((spec_c8 0 1 1 1).1.mp h) (by decide),
   fun h => absurd ((spec_c8 65 1 1 1).1.mp h) (by decide),
   fun h => absurd ((spec_c8 1 5 1 1).1.mp h) (by decide),
   fun h => absurd ((spec_c8 1 1 17 1).1.mp h) (by decide),
   fun h => absurd ((spec_c8 1 1 1 9).1.mp h) (by decide)⟩

/-- C9: `CanFdBitTiming::new` succeeds iff all eight parameters lie within
their inclusive boundaries: nominal prescaler [1,1024], nominal sjw [1,128],
nominal tseg1 [1,256], nominal tseg2 [1,128], data prescaler [1,1024],
data sjw [1,16], data tseg1 [1,32], data tseg2 [1,16]. -/
theorem spec_c9 : ∀ np ns nt1 nt2 dp ds dt1 dt2 : Nat,
    ((∃ t, CanFdBitTiming.new np ns nt1 nt2 dp ds dt1 dt2 = .ok t) ↔
      (1 ≤ np ∧ np ≤ 1024 ∧ 1 ≤ ns ∧ ns ≤ 128 ∧ 1 ≤ nt1 ∧ nt1 ≤ 256 ∧
       1 ≤ nt2 ∧ nt2 ≤ 128 ∧ 1 ≤ dp ∧ dp ≤ 1024 ∧ 1 ≤ ds ∧ ds ≤ 16 ∧
       1 ≤ dt1 ∧ dt1 ≤ 32 ∧ 1 ≤ dt2 ∧ dt2 ≤ 16)) ∧
    (∀ e, CanFdBitTiming.new np ns nt1 nt2 dp ds dt1 dt2 = .error e →
      e = "Timing parameters are out of bounds") := by
  intro np ns nt1 nt2 dp ds dt1 dt2
  have hval := CanFdBitTiming.validate_fd_iff np ns nt1 nt2 dp ds dt1 dt2
  constructor
  · by_cases hv :
      CanFdBitTiming.validate ⟨np, ns, nt1, nt2, dp, ds, dt1, dt2⟩ = true
    · simp only [CanFdBitTiming.new, if_pos hv]
      exact ⟨fun _ => hval.mp hv, fun _ => ⟨_, rfl⟩⟩
    · simp only [CanFdBitTiming.new, if_neg hv]
      constructor
      · intro h
        obtain ⟨t, ht⟩ := h
        exact Except.noConfusion ht
      · intro hr
        exact absurd (hval.mpr hr) hv
  · intro e he
    by_cases hv :
      CanFdBitTiming.validate ⟨np, ns, nt1, nt2, dp, ds, dt1, dt2⟩ = true
    · simp only [CanFdBitTiming.new, if_pos hv] at he
      exact Except.noConfusion he
    · simp only [CanFdBitTiming.new, if_neg hv] at he
      injection he with he
      exact he.symm

/-- Witness for C9: all-minima and all-maxima assignments accepted, and one
unit outside each of the eight boundaries rejected. -/
theorem spec_c9_witness :
    (∃ t, CanFdBitTiming.new 1 1 1 1 1 1 1 1 = .ok t) ∧
    (∃ t, CanFdBitTiming.new 1024 128 256 128 1024 16 32 16 = .ok t) ∧
    ¬(∃ t, CanFdBitTiming.new 0 1 1 1 1 1 1 1 = .ok t) ∧
    ¬(∃ t, CanFdBitTiming.new 1025 1 1 1 1 1 1 1 = .ok t) ∧
    ¬(∃ t, CanFdBitTiming.new 1 129 1 1 1 1 1 1 = .ok t) ∧
    ¬(∃ t, CanFdBitTiming.new 1 1 257 1 1 1 1 1 = .ok t) ∧
    ¬(∃ t, CanFdBitTiming.new 1 1 1 129 1 1 1 1 = .ok t) ∧
    ¬(∃ t, CanFdBitTiming.new 1 1 1 1 1025 1 1 1 = .ok t) ∧
    ¬(∃ t, CanFdBitTiming.new 1 1 1 1 1 17 1 1 = .ok t) ∧
    ¬(∃ t, CanFdBitTiming.new 1 1 1 1 1 1 33 1 = .ok t) ∧
    ¬(∃ t, CanFdBitTiming.new 1 1 1 1 1 1 1 17 = .ok t) :=
  ⟨(spec_c9 1 1 1 1 1 1 1 1).1.mpr (by decide),
   (spec_c9 1024 128 256 128 1024 16 32 16).1.mpr (by decide),
   fun h => absurd ((spec_c9 0 1 1 1 1 1 1 1).1.mp h) (by decide),
   fun h => absurd ((spec_c9 1025 1 1 1 1 1 1 1).1.mp h) (by decide),
   fun h => absurd ((spec_c9 1 129 1 1 1 1 1 1).1.mp h) (by decide),
   fun h => absurd ((spec_c9 1 1 257 1 1 1 1 1).1.mp h) (by decide),
   fun h => absurd ((spec_c9 1 1 1 129 1 1 1 1).1.mp h) (by decide),
   fun h => absurd ((spec_c9 1 1 1 1 1025 1 1 1).1.mp h) (by decide),
   fun h => absurd ((spec_c9 1 1 1 1 1 17 1 1).1.mp h) (by decide),
   fun h => absurd ((spec_c9 1 1 1 1 1 1 33 1).1.mp h) (by decide),
   fun h => absurd ((spec_c9 1 1 1 1 1 1 1 17).1.mp h) (by decide)⟩

/-- C10: frame accessors index in bounds on frames the code produces: every
`CanFrame` built by `CanFrame::new` has `LEN <= 8` and an 8-byte buffer, so
the `data` slice has exactly `LEN` bytes; `CanFdFrame::len` is at most 64
for every possible DLC byte, so the FD `data` slice over the 64-byte buffer
is always in bounds; and the default-value constructions (empty payload)
always succeed, so neither `Default` implementation can panic. -/
theorem spec_c10 :
    (∀ (id : Nat) (mt : MessageType) (d : List Nat) (f : CanFrame),
      CanFrame.new id mt d = .ok f →
        f.frame.LEN ≤ 8 ∧ f.frame.DATA.length = 8 ∧
        f.data.length = f.frame.LEN) ∧
    (∀ f : CanFdFrame, f.len ≤ 64) ∧
    (∀ f : CanFdFrame, f.frame.DATA.length = 64 → f.data.length = f.len) ∧
    (∃ f, CanFrame.new 0 .Standard [] = .ok f) ∧
    (∃ f, CanFdFrame.new 0 .Standard [] false false = .ok f) := by
  refine ⟨?_, ?_, ?_, ?_, ?_⟩
  · intro id mt d f h
    have hd := CanFrame.new_ok_length h
    cases mt
    all_goals
      first
      | rw [CanFrame.new_standard id d hd] at h
      | rw [CanFrame.new_extended id d hd] at h
    all_goals
      injection h with h
      subst h
      refine ⟨hd, fillBuffer_length hd, ?_⟩
      simp only [CanFrame.data, CanFrame.dlc]
      rw [List.length_take, fillBuffer_length hd]
      omega
  · intro f
    exact CanFdFrame.lenOfDlc_le f.dlc
  · intro f h
    have h64 : f.len ≤ 64 := CanFdFrame.lenOfDlc_le f.dlc
    simp only [CanFdFrame.data]
    rw [List.length_take, h]
    omega
  · exact ⟨_, CanFrame.new_standard 0 [] (by decide)⟩
  · exact ⟨_, CanFdFrame.new_fd_standard 0 [] false false (by decide)⟩

/-- Witness for C10 on concrete frames. -/
theorem spec_c10_witness :
    ((CanFrame.mk ⟨0x20, PEAK_MESSAGE_STANDARD, 2, fillBuffer 8 [7, 7]⟩).frame.LEN ≤ 8 ∧
     (CanFrame.mk ⟨0x20, PEAK_MESSAGE_STANDARD, 2, fillBuffer 8 [7, 7]⟩).frame.DATA.length = 8 ∧
     (CanFrame.mk ⟨0x20, PEAK_MESSAGE_STANDARD, 2, fillBuffer 8 [7, 7]⟩).data.length
       = (CanFrame.mk ⟨0x20, PEAK_MESSAGE_STANDARD, 2, fillBuffer 8 [7, 7]⟩).frame.LEN) ∧
    (CanFdFrame.mk ⟨0, 0, 0, List.replicate 64 0⟩).data.length
      = (CanFdFrame.mk ⟨0, 0, 0, List.replicate 64 0⟩).len :=
  ⟨spec_c10.1 0x20 .Standard [7, 7] _ rfl,
   spec_c10.2.2.1 _ (by decide)⟩

end PeakCan
